import Mathlib

/-!
Shallow embedding of the inventory/point-of-sale backend
(src/backend/app.py) and proofs about its stock ledger, receipt log,
invoice engine and stats aggregator.

Modelling conventions:
* Document ids (Mongo ObjectIds) are abstracted to naturals; the
  malformed-id-string branches of the handlers are outside the model.
* Python numbers are exact rationals; `int()` / `float()` coercions are
  modelled by `pyInt` / `pyFloat`, which can fail the way the Python
  calls can raise.  Where the source wraps a coercion in try/except the
  failure becomes `ApiError.invalidArgument`; where it does not, the
  failure is `ApiError.uncaughtException` (an unhandled Python exception).
* Timestamps are opaque string tokens supplied by the caller (the clock
  is an external collaborator); ISO-8601 parsing is not modelled and no
  claim depends on timestamp values.
* Each handler returns the resulting store state together with an
  `Except` result.  In the source every error `return` happens before the
  corresponding store write, so error branches return the store unchanged.
-/

/-- Subset of JSON/Python values relevant to the numeric-coercion
behaviour of the backend; numbers are modelled as exact rationals. -/
inductive Value where
  | null : Value
  | num (q : ℚ) : Value
  | str (s : String) : Value
  | bool (b : Bool) : Value
deriving DecidableEq

/-- Python truthiness of a modelled value: None, 0, the empty string and
False are falsy. -/
def Value.falsy : Value → Bool
  | .null => true
  | .num q => decide (q = 0)
  | .str s => decide (s = "")
  | .bool b => !b

/-- Models the Python idiom `data.get(k) or 0`: an absent key or a falsy
value is replaced by the number 0. -/
def pyOr0 (v : Option Value) : Value :=
  match v with
  | none => .num 0
  | some v => if v.falsy then .num 0 else v

/-- Truncation toward zero, the behaviour of Python int() on a number. -/
def pyTrunc (q : ℚ) : ℤ := q.num.tdiv q.den

/-- All characters are decimal digits. -/
def allDigits (cs : List Char) : Bool := cs.all (·.isDigit)

/-- Numeric value of a list of decimal digits. -/
def digitsToNat (cs : List Char) : ℕ :=
  cs.foldl (fun a c => a * 10 + (c.toNat - 48)) 0

/-- Models Python int(s) on a string: an optional sign followed by at
least one decimal digit (whitespace/underscore tolerance not modelled). -/
def intOfString (s : String) : Option ℤ :=
  match s.data with
  | '-' :: rest =>
    if !rest.isEmpty && allDigits rest then some (-(digitsToNat rest : ℤ)) else none
  | '+' :: rest =>
    if !rest.isEmpty && allDigits rest then some (digitsToNat rest : ℤ) else none
  | cs =>
    if !cs.isEmpty && allDigits cs then some (digitsToNat cs : ℤ) else none

/-- Decimal-fraction body: digits, optionally split by a single point,
with at least one digit overall. -/
def ratOfDigitBody (cs : List Char) : Option ℚ :=
  let ip := cs.takeWhile (fun c => c ≠ '.')
  let rest := cs.dropWhile (fun c => c ≠ '.')
  match rest with
  | [] =>
    if !ip.isEmpty && allDigits ip then some (digitsToNat ip : ℚ) else none
  | _ :: fp =>
    if (!ip.isEmpty || !fp.isEmpty) && allDigits ip && allDigits fp then
      some ((digitsToNat ip : ℚ) + (digitsToNat fp : ℚ) / ((10 : ℚ) ^ fp.length))
    else none

/-- Models Python float(s) on a string: optional sign and a decimal
literal (exponents and special forms are outside the model). -/
def ratOfString (s : String) : Option ℚ :=
  match s.data with
  | '-' :: rest => (ratOfDigitBody rest).map (fun q => -q)
  | '+' :: rest => ratOfDigitBody rest
  | cs => ratOfDigitBody cs

/-- Models Python int(value): numbers truncate toward zero, integer
strings parse, booleans map to 0/1, anything else raises. -/
def pyInt (v : Value) : Except Unit ℤ :=
  match v with
  | .num q => .ok (pyTrunc q)
  | .str s => match intOfString s with
    | some n => .ok n
    | none => .error ()
  | .bool b => .ok (if b then 1 else 0)
  | .null => .error ()

/-- Models Python float(value): numbers pass through exactly, decimal
strings parse, booleans map to 0/1, anything else raises. -/
def pyFloat (v : Value) : Except Unit ℚ :=
  match v with
  | .num q => .ok q
  | .str s => match ratOfString s with
    | some q => .ok q
    | none => .error ()
  | .bool b => .ok (if b then 1 else 0)
  | .null => .error ()

/-- Round-half-to-even on rationals, the behaviour of Python round()
idealised to exact arithmetic. -/
def roundHalfEven (q : ℚ) : ℤ :=
  if q - (⌊q⌋ : ℚ) < 1/2 then ⌊q⌋
  else if (1/2 : ℚ) < q - (⌊q⌋ : ℚ) then ⌊q⌋ + 1
  else if 2 ∣ ⌊q⌋ then ⌊q⌋ else ⌊q⌋ + 1

/-- Python round(x, 2) on the idealised rational value. -/
def round2 (q : ℚ) : ℚ := (roundHalfEven (q * 100) : ℚ) / 100

/-- An inventory item document (items collection). -/
structure Item where
  name : String := ""
  category : String := ""
  type : String := ""
  quantity : ℤ := 0
  minStockLevel : ℤ := 0
  price : ℚ := 0
  sku : String := ""
  description : String := ""
  location : String := ""
  supplier : String := ""
  expirationDate : Option String := none
  batchNumber : String := ""
deriving DecidableEq

/-- A received-stock record (receipts collection).  The adjust_stock
path writes no previousQuantity / newQuantity keys, so both are
optional here; the receivedAt/createdAt clock values are not modelled. -/
structure Receipt where
  itemId : ℕ
  sku : String := ""
  name : String := ""
  quantity : ℤ := 0
  previousQuantity : Option ℤ := none
  newQuantity : Option ℤ := none
  receivedBy : Option String := none
deriving DecidableEq

/-- A normalized invoice line as stored inside an invoice document. -/
structure Line where
  itemId : Option ℕ := none
  name : String := ""
  sku : String := ""
  price : ℚ := 0
  quantity : ℤ := 0
deriving DecidableEq

/-- An invoice document (invoices collection); printedAt is an opaque
timestamp token. -/
structure Invoice where
  number : String := ""
  printedAt : String := ""
  customerName : String := ""
  customerPhone : String := ""
  taxRate : ℚ := 0
  discountRate : ℚ := 0
  lines : List Line := []
  createdBy : String := ""
deriving DecidableEq

/-- The dict returned by compute_invoice_totals (after_dis is an
internal variable of the source, not a returned key). -/
structure Totals where
  subtotal : ℚ
  discountRate : ℚ
  discountAmount : ℚ
  taxRate : ℚ
  taxAmount : ℚ
  total : ℚ
deriving DecidableEq

/-- The backing store: the three collections the core logic touches,
plus a fresh-id counter standing in for ObjectId generation. -/
structure DB where
  items : List (ℕ × Item) := []
  invoices : List (ℕ × Invoice) := []
  receipts : List Receipt := []
  nextId : ℕ := 0
deriving DecidableEq

/-- Outcomes a handler can signal: HTTP 400, HTTP 404, or an exception
the handler does not catch (Flask turns it into a generic 500). -/
inductive ApiError where
  | invalidArgument (msg : String)
  | notFound (msg : String)
  | uncaughtException
deriving DecidableEq

/-- find_one by _id over a collection: the first entry with the id. -/
def findDoc {α : Type} : List (ℕ × α) → ℕ → Option α
  | [], _ => none
  | e :: rest, oid => if e.1 = oid then some e.2 else findDoc rest oid

/-- update_one by _id with a whole replacement document (first match). -/
def setDoc {α : Type} : List (ℕ × α) → ℕ → α → List (ℕ × α)
  | [], _, _ => []
  | e :: rest, oid, a =>
    if e.1 = oid then (e.1, a) :: rest else e :: setDoc rest oid a

/-- update_one on the items collection setting only the quantity field. -/
def setQuantity : List (ℕ × Item) → ℕ → ℤ → List (ℕ × Item)
  | [], _, _ => []
  | e :: rest, oid, q =>
    if e.1 = oid then (e.1, { e.2 with quantity := q }) :: rest
    else e :: setQuantity rest oid q

/-- POST /api/items/id/adjust_stock: coerce delta (guarded by
try/except in the source, hence invalidArgument on failure), look the
item up, clamp the new quantity at zero, and append a receipt only when
delta is positive.  The receipt written here carries no
previousQuantity / newQuantity keys. -/
def adjust_stock (db : DB) (itemId : ℕ) (deltaVal : Option Value)
    (changedBy : Option String) : DB × Except ApiError Item :=
  match pyInt (pyOr0 deltaVal) with
  | .error _ => (db, .error (.invalidArgument "Bad delta value"))
  | .ok delta =>
    match findDoc db.items itemId with
    | none => (db, .error (.notFound "Item not found"))
    | some doc =>
      let newQty := max 0 (doc.quantity + delta)
      let db1 := { db with items := setQuantity db.items itemId newQty }
      let db2 :=
        if 0 < delta then
          { db1 with receipts := db1.receipts ++
              [{ itemId := itemId, sku := doc.sku, name := doc.name,
                 quantity := delta, receivedBy := changedBy }] }
        else db1
      (db2, .ok { doc with quantity := newQty })

/-- POST /api/receipts: require itemId, coerce quantity (guarded, hence
invalidArgument), reject non-positive quantity, update the item and
append a receipt carrying previousQuantity / newQuantity. -/
def receipts_post (db : DB) (itemId : Option ℕ) (quantityVal : Option Value)
    (receivedBy : Option String) : DB × Except ApiError (Item × Receipt) :=
  match itemId with
  | none => (db, .error (.invalidArgument "itemId is required"))
  | some oid =>
    match pyInt (pyOr0 quantityVal) with
    | .error _ => (db, .error (.invalidArgument "Bad quantity value"))
    | .ok qty =>
      if qty ≤ 0 then (db, .error (.invalidArgument "quantity must be > 0"))
      else
        match findDoc db.items oid with
        | none => (db, .error (.notFound "Item not found"))
        | some doc =>
          let oldQty := doc.quantity
          let newQty := max 0 (oldQty + qty)
          let receipt : Receipt :=
            { itemId := oid, sku := doc.sku, name := doc.name, quantity := qty,
              previousQuantity := some oldQty, newQuantity := some newQty,
              receivedBy := receivedBy }
          let db1 := { db with items := setQuantity db.items oid newQty }
          let db2 := { db1 with receipts := db1.receipts ++ [receipt] }
          (db2, .ok ({ doc with quantity := newQty }, receipt))

/-- A partial item-update payload: presence of a key in the PUT body. -/
structure ItemPatch where
  name : Option String := none
  category : Option String := none
  type : Option String := none
  quantity : Option Value := none
  minStockLevel : Option Value := none
  price : Option Value := none
  sku : Option String := none
  description : Option String := none
  location : Option String := none
  supplier : Option String := none
  expirationDate : Option (Option String) := none
deriving DecidableEq

/-- Emptiness of the update payload (`if not update_fields`). -/
def ItemPatch.isEmpty (p : ItemPatch) : Bool :=
  p.name.isNone && p.category.isNone && p.type.isNone && p.quantity.isNone &&
  p.minStockLevel.isNone && p.price.isNone && p.sku.isNone &&
  p.description.isNone && p.location.isNone && p.supplier.isNone &&
  p.expirationDate.isNone

/-- Coerces one optional numeric field of update_item.  The source wraps
these int()/float() calls in no try/except (unlike create_item,
adjust_stock and the receipts handler), so a failure is an uncaught
exception, not a 400. -/
def coerceNum {α : Type} (f : Value → Except Unit α) (v : Option Value) :
    Except ApiError (Option α) :=
  match v with
  | none => .ok none
  | some v => match f v with
    | .ok a => .ok (some a)
    | .error _ => .error .uncaughtException

/-- The `$set` document of update_item applied to an item: exactly the
fields present in the payload are replaced, the numeric ones by their
coerced values. -/
def applyItemPatch (it : Item) (p : ItemPatch) (qty minStock : Option ℤ)
    (price : Option ℚ) : Item :=
  { it with
    name := p.name.getD it.name,
    category := p.category.getD it.category,
    type := p.type.getD it.type,
    quantity := qty.getD it.quantity,
    minStockLevel := minStock.getD it.minStockLevel,
    price := price.getD it.price,
    sku := p.sku.getD it.sku,
    description := p.description.getD it.description,
    location := p.location.getD it.location,
    supplier := p.supplier.getD it.supplier,
    expirationDate := p.expirationDate.getD it.expirationDate }

/-- PUT /api/items/id: build update_fields (coercions may raise, and
they run before any store access), reject an empty payload, then 404 or
apply the $set.  A stored quantity is whatever int() returned — negative
values are not clamped here. -/
def update_item (db : DB) (itemId : ℕ) (p : ItemPatch) :
    DB × Except ApiError Item :=
  match coerceNum pyInt p.quantity with
  | .error e => (db, .error e)
  | .ok qty =>
  match coerceNum pyInt p.minStockLevel with
  | .error e => (db, .error e)
  | .ok minStock =>
  match coerceNum pyFloat p.price with
  | .error e => (db, .error e)
  | .ok price =>
  if p.isEmpty then (db, .error (.invalidArgument "Nothing to update"))
  else
    match findDoc db.items itemId with
    | none => (db, .error (.notFound "Item not found"))
    | some doc =>
      let updated := applyItemPatch doc p qty minStock price
      ({ db with items := setDoc db.items itemId updated }, .ok updated)

/-- compute_invoice_totals: subtotal accumulated over the lines, then
discount, clamp at zero, tax, total; monetary outputs rounded to two
decimals.  after_dis is a local of the source, not a returned key. -/
def compute_invoice_totals (inv : Invoice) : Totals :=
  let subtotal := inv.lines.foldl (fun s l => s + l.price * (l.quantity : ℚ)) 0
  let discount_amount := subtotal * inv.discountRate / 100
  let after_dis := max 0 (subtotal - discount_amount)
  let tax_amount := after_dis * inv.taxRate / 100
  let total := after_dis + tax_amount
  { subtotal := round2 subtotal,
    discountRate := inv.discountRate,
    discountAmount := round2 discount_amount,
    taxRate := inv.taxRate,
    taxAmount := round2 tax_amount,
    total := round2 total }

/-- The exact (unrounded) subtotal of an invoice. -/
def rawSubtotal (inv : Invoice) : ℚ :=
  (inv.lines.map (fun l => l.price * (l.quantity : ℚ))).sum

/-- The internal after_dis value of compute_invoice_totals. -/
def afterDiscount (inv : Invoice) : ℚ :=
  max 0 (rawSubtotal inv - rawSubtotal inv * inv.discountRate / 100)

/-- A caller-supplied invoice line before normalization; itemId is the
already-resolved reference (absent or malformed ids both become none in
the source). -/
structure LineSpec where
  itemId : Option ℕ := none
  name : Option String := none
  sku : Option String := none
  price : Option Value := none
  quantity : Option Value := none
deriving DecidableEq

/-- Body of the line-normalization loops of create_invoice and
update_invoice; the unguarded float()/int() coercions can raise. -/
def normalizeLine (l : LineSpec) : Except ApiError Line :=
  match pyFloat (pyOr0 l.price) with
  | .error _ => .error .uncaughtException
  | .ok price =>
  match pyInt (pyOr0 l.quantity) with
  | .error _ => .error .uncaughtException
  | .ok qty =>
    .ok { itemId := l.itemId, name := l.name.getD "", sku := l.sku.getD "",
          price := price, quantity := qty }

/-- Normalizes the whole lines list, stopping at the first raise. -/
def normalizeLines : List LineSpec → Except ApiError (List Line)
  | [] => .ok []
  | l :: ls =>
    match normalizeLine l with
    | .error e => .error e
    | .ok nl =>
      match normalizeLines ls with
      | .error e => .error e
      | .ok nls => .ok (nl :: nls)

/-- One iteration of the applyStockChange loop of create_invoice: a line
with an absent item reference or one that does not look up is skipped
silently; otherwise the item quantity is decremented with a floor of
zero.  No receipt is written on this path. -/
def applyLine (items : List (ℕ × Item)) (line : Line) : List (ℕ × Item) :=
  match line.itemId with
  | none => items
  | some oid =>
    match findDoc items oid with
    | none => items
    | some doc => setQuantity items oid (max 0 (doc.quantity - line.quantity))

/-- The whole applyStockChange loop. -/
def applyLines (items : List (ℕ × Item)) (lines : List Line) : List (ℕ × Item) :=
  lines.foldl applyLine items

/-- A caller-supplied invoice creation payload. -/
structure InvoiceSpec where
  number : Option String := none
  printedAt : Option String := none
  customerName : Option String := none
  customerPhone : Option String := none
  taxRate : Option Value := none
  discountRate : Option Value := none
  lines : Option (List LineSpec) := none
  applyStockChange : Bool := false
  createdBy : Option String := none
deriving DecidableEq

/-- Truthiness test on an optional string (`if not number`). -/
def strFalsy (s : Option String) : Bool :=
  match s with
  | none => true
  | some s => decide (s = "")

/-- printedAt resolution: a supplied non-empty token is kept, otherwise
the current clock value is used (ISO parsing not modelled). -/
def timestampToken (p : Option String) (now : String) : String :=
  match p with
  | none => now
  | some s => if s = "" then now else s

/-- POST /api/invoices: require number and a non-empty lines list, then
coerce rates and normalize lines (unguarded coercions can raise — all
before any store write), optionally run the stock-decrement loop, then
insert the invoice and return it with its computed totals. -/
def create_invoice (db : DB) (spec : InvoiceSpec) (now : String) :
    DB × Except ApiError (Invoice × Totals) :=
  let lines := spec.lines.getD []
  if strFalsy spec.number || lines.isEmpty then
    (db, .error (.invalidArgument "number and lines are required"))
  else
    match pyFloat (pyOr0 spec.taxRate) with
    | .error _ => (db, .error .uncaughtException)
    | .ok taxRate =>
    match pyFloat (pyOr0 spec.discountRate) with
    | .error _ => (db, .error .uncaughtException)
    | .ok discountRate =>
    match normalizeLines lines with
    | .error e => (db, .error e)
    | .ok normLines =>
      let invoice : Invoice :=
        { number := spec.number.getD "",
          printedAt := timestampToken spec.printedAt now,
          customerName := spec.customerName.getD "",
          customerPhone := spec.customerPhone.getD "",
          taxRate := taxRate, discountRate := discountRate,
          lines := normLines, createdBy := spec.createdBy.getD "" }
      let db1 :=
        if spec.applyStockChange then
          { db with items := applyLines db.items normLines }
        else db
      let db2 := { db1 with
        invoices := db1.invoices ++ [(db1.nextId, invoice)],
        nextId := db1.nextId + 1 }
      (db2, .ok (invoice, compute_invoice_totals invoice))

/-- A partial invoice-update payload: presence of a key in the PUT body.
The customer fields carry their value after the `or ""` defaulting; a
present falsy lines value is already the empty list. -/
structure InvoicePatch where
  customerName : Option String := none
  customerPhone : Option String := none
  taxRate : Option Value := none
  discountRate : Option Value := none
  lines : Option (List LineSpec) := none
deriving DecidableEq

/-- Emptiness of the invoice update payload. -/
def InvoicePatch.isEmpty (p : InvoicePatch) : Bool :=
  p.customerName.isNone && p.customerPhone.isNone && p.taxRate.isNone &&
  p.discountRate.isNone && p.lines.isNone

/-- Coerces an optional rate field of update_invoice
(`float(data.get(k) or 0)`, unguarded). -/
def coerceRate (v : Option Value) : Except ApiError (Option ℚ) :=
  match v with
  | none => .ok none
  | some v =>
    match pyFloat (pyOr0 (some v)) with
    | .ok q => .ok (some q)
    | .error _ => .error .uncaughtException

/-- Normalizes an optional replacement lines list. -/
def coerceLines (v : Option (List LineSpec)) :
    Except ApiError (Option (List Line)) :=
  match v with
  | none => .ok none
  | some ls =>
    match normalizeLines ls with
    | .ok nls => .ok (some nls)
    | .error e => .error e

/-- The `$set` document of update_invoice applied to an invoice. -/
def applyInvoicePatch (inv : Invoice) (p : InvoicePatch) (t d : Option ℚ)
    (ls : Option (List Line)) : Invoice :=
  { inv with
    customerName := p.customerName.getD inv.customerName,
    customerPhone := p.customerPhone.getD inv.customerPhone,
    taxRate := t.getD inv.taxRate,
    discountRate := d.getD inv.discountRate,
    lines := ls.getD inv.lines }

/-- PUT /api/invoices/id: build update_fields (coercions run before the
emptiness check and before any store access), then 404 or apply the
$set.  The items collection is never touched on any path. -/
def update_invoice (db : DB) (invoiceId : ℕ) (p : InvoicePatch) :
    DB × Except ApiError (Invoice × Totals) :=
  match coerceRate p.taxRate with
  | .error e => (db, .error e)
  | .ok t =>
  match coerceRate p.discountRate with
  | .error e => (db, .error e)
  | .ok d =>
  match coerceLines p.lines with
  | .error e => (db, .error e)
  | .ok ls =>
  if p.isEmpty then (db, .error (.invalidArgument "Nothing to update"))
  else
    match findDoc db.invoices invoiceId with
    | none => (db, .error (.notFound "Invoice not found"))
    | some inv =>
      let updated := applyInvoicePatch inv p t d ls
      ({ db with invoices := setDoc db.invoices invoiceId updated },
       .ok (updated, compute_invoice_totals updated))

/-- Accumulator of the stats loop. -/
structure StatsAcc where
  totalQuantity : ℤ
  lowStockItems : List String
  totalValue : ℚ
  categories : List String
deriving DecidableEq

/-- One iteration of the stats loop: accumulate quantity and value, add
a truthy category to the set, and append the name when the low-stock
condition (minStockLevel > 0 and quantity below it) holds. -/
def statsStep (acc : StatsAcc) (it : Item) : StatsAcc :=
  { totalQuantity := acc.totalQuantity + it.quantity,
    totalValue := acc.totalValue + (it.quantity : ℚ) * it.price,
    categories :=
      if it.category ≠ "" then
        (if it.category ∈ acc.categories then acc.categories
         else acc.categories ++ [it.category])
      else acc.categories,
    lowStockItems :=
      if 0 < it.minStockLevel ∧ it.quantity < it.minStockLevel then
        acc.lowStockItems ++ [it.name]
      else acc.lowStockItems }

/-- The dict returned by GET /api/stats. -/
structure StatsOut where
  totalQuantity : ℤ
  lowStockCount : ℕ
  lowStockItems : List String
  totalInventoryValue : ℚ
  uniqueCategoriesCount : ℕ
deriving DecidableEq

/-- GET /api/stats: a single pass over the items collection. -/
def stats (db : DB) : StatsOut :=
  let acc := db.items.foldl (fun a e => statsStep a e.2) ⟨0, [], 0, []⟩
  { totalQuantity := acc.totalQuantity,
    lowStockCount := acc.lowStockItems.length,
    lowStockItems := acc.lowStockItems,
    totalInventoryValue := round2 acc.totalValue,
    uniqueCategoriesCount := acc.categories.length }

/-- A call into the stock ledger: a manual adjustment or a receiving
call, with the requested (already numeric) delta or quantity. -/
inductive StockOp where
  | adjust (itemId : ℕ) (delta : ℤ) (changedBy : Option String)
  | receive (itemId : ℕ) (quantity : ℤ) (receivedBy : Option String)
deriving DecidableEq

/-- Runs one ledger call against the store, keeping the prior state when
the call reports an error (every error return in the source happens
before the quantity write). -/
def applyStockOp (db : DB) (op : StockOp) : DB :=
  match op with
  | .adjust oid d cb => (adjust_stock db oid (some (.num (d : ℚ))) cb).1
  | .receive oid q rb => (receipts_post db (some oid) (some (.num (q : ℚ))) rb).1

/-- Runs a finite sequence of ledger calls. -/
def runStockOps (db : DB) (ops : List StockOp) : DB :=
  ops.foldl applyStockOp db

/-- The all-items invariant of the spec: no stored quantity is negative. -/
def itemsNonneg (db : DB) : Prop := ∀ e ∈ db.items, 0 ≤ e.2.quantity

/-- Concrete store for the C1 counterexample. -/
def itemC1 : Item := { name := "Widget", sku := "W-1", quantity := 7 }

/-- Concrete store for the C1 counterexample. -/
def dbC1 : DB := { items := [(1, itemC1)] }

/-- Concrete store for the C7 failing input. -/
def dbC7 : DB := { items := [(1, { name := "Widget", quantity := 3 })] }

/-- The invoice of the worked example in the spec: one line of 100 at
quantity 1, discount 10 percent, tax 8 percent. -/
def invC4 : Invoice :=
  { number := "INV-1", taxRate := 8, discountRate := 10,
    lines := [{ price := 100, quantity := 1 }] }

/-- First item of the stats worked example. -/
def itemC9a : Item := { name := "Alpha", quantity := 5, minStockLevel := 10, price := 2 }

/-- Second item of the stats worked example. -/
def itemC9b : Item :=
  { name := "Beta", category := "A", quantity := 20, minStockLevel := 5, price := 1 }

/-- Store of the stats worked example. -/
def dbC9 : DB := { items := [(1, itemC9a), (2, itemC9b)] }

/-- Empty store for the C8 counterexample. -/
def dbC8 : DB := {}

/-- Payload with number and lines present but a non-coercible line
quantity, for the C8 counterexample. -/
def specC8 : InvoiceSpec :=
  { number := some "INV-1", lines := some [{ quantity := some (.str "x") }] }

/-- Witness data for the C1 theorem. -/
def itemW1 : Item := { name := "Gadget", sku := "G-1", quantity := 4 }

/-- Witness data for the C1 theorem. -/
def dbW1 : DB := { items := [(3, itemW1)] }

/-- Witness store for the C2 theorem. -/
def dbW2 : DB := { items := [(1, { name := "Widget", quantity := 2 })] }

/-- Witness operation sequence for the C2 theorem, with deltas far more
negative than the stock on hand. -/
def opsW2 : List StockOp :=
  [.adjust 1 (-100) none, .receive 1 5 none, .adjust 1 (-7) none]

/-- Witness data for the C3 theorem. -/
def itemW3 : Item := { name := "Paper", quantity := 9 }

/-- Witness data for the C3 theorem. -/
def dbW3 : DB := { items := [(2, itemW3)] }

/-- Witness invoice with empty lines for the C4 theorem. -/
def invW4 : Invoice := { taxRate := 7, discountRate := 3, lines := [] }

/-- Witness data for the C5 theorem. -/
def itemW5 : Item := { name := "Cable", quantity := 3 }

/-- Witness data for the C5 theorem. -/
def dbW5 : DB := { items := [(1, itemW5)] }

/-- Witness payload for the C5 theorem: one line over-draws item 1, the
other references an id that does not resolve. -/
def specW5 : InvoiceSpec :=
  { number := some "INV-9",
    lines := some [{ itemId := some 1, quantity := some (.num ((5:ℤ) : ℚ)) },
                   { itemId := some 99, quantity := some (.num ((2:ℤ) : ℚ)) }],
    applyStockChange := true }

/-- Normalized form of the C5 witness lines. -/
def nlsW5 : List Line :=
  [{ itemId := some 1, quantity := 5 }, { itemId := some 99, quantity := 2 }]

/-- Witness data for the C6 theorem. -/
def invW6 : Invoice :=
  { number := "INV-4", customerName := "Ann", taxRate := 5, lines := [] }

/-- Witness data for the C6 theorem. -/
def dbW6 : DB := { invoices := [(7, invW6)],
                   items := [(1, { name := "Widget", quantity := 3 })] }

/-- Witness patch for the C6 theorem. -/
def patchW6 : InvoicePatch := { customerName := some "Bob" }

/-- The invoice the C6 witness update stores. -/
def invW6x : Invoice := applyInvoicePatch invW6 patchW6 none none none

/-- Witness store for the C8 theorem. -/
def dbW8 : DB := {}

/-- Witness payload with the number absent, for the C8 theorem. -/
def specW8a : InvoiceSpec := { lines := some [{}] }

/-- Witness payload with number and lines present and coercible, for the
C8 theorem. -/
def specW8b : InvoiceSpec :=
  { number := some "INV-2",
    lines := some [{ quantity := some (.num ((1:ℤ) : ℚ)) }] }

/-- Normalized form of the C8 witness lines. -/
def nlsW8 : List Line := [{ quantity := 1 }]

/-- Witness data for the C10 theorem. -/
def itemW10 : Item := { name := "Chair", quantity := 6 }

/-- Witness data for the C10 theorem. -/
def dbW10 : DB := { items := [(4, itemW10)] }

/-- Python int() on an integer-valued rational is that integer. -/
theorem pyTrunc_intCast (n : ℤ) : pyTrunc (n : ℚ) = n := by
  simp [pyTrunc, Rat.num_intCast, Rat.den_intCast, Int.tdiv_one]

/-- pyInt on an integer-valued number succeeds with that integer. -/
theorem pyInt_num_intCast (n : ℤ) : pyInt (.num (n : ℚ)) = .ok n := by
  simp [pyInt, pyTrunc_intCast]

/-- The delta-coercion pipeline of adjust_stock on an integer payload. -/
theorem pyInt_pyOr0_intCast (n : ℤ) :
    pyInt (pyOr0 (some (.num (n : ℚ)))) = .ok n := by
  by_cases h : n = 0
  · subst h; simp [pyOr0, Value.falsy, pyInt, pyTrunc]
  · have : ¬ ((n : ℚ) = 0) := by exact_mod_cast h
    simp [pyOr0, Value.falsy, this, pyInt_num_intCast]

/-- The rate-coercion pipeline on an integer payload. -/
theorem pyFloat_pyOr0_intCast (n : ℤ) :
    pyFloat (pyOr0 (some (.num (n : ℚ)))) = .ok (n : ℚ) := by
  by_cases h : n = 0
  · subst h; simp [pyOr0, Value.falsy, pyFloat]
  · have : ¬ ((n : ℚ) = 0) := by exact_mod_cast h
    simp [pyOr0, Value.falsy, this, pyFloat]

/-- Reading back an id that was present after replacing its document
yields the replacement. -/
theorem findDoc_setDoc_self {α : Type} (col : List (ℕ × α)) (oid : ℕ) (a : α)
    (h : (findDoc col oid).isSome) : findDoc (setDoc col oid a) oid = some a := by
  induction col with
  | nil => simp [findDoc] at h
  | cons e rest ih =>
    by_cases he : e.1 = oid
    · simp [findDoc, setDoc, he]
    · simp only [findDoc, setDoc, he, if_false] at h ⊢
      exact ih h

/-- Every entry after a quantity write is an old entry or carries the
written quantity. -/
theorem mem_setQuantity (items : List (ℕ × Item)) (oid : ℕ) (q : ℤ)
    (e : ℕ × Item) (he : e ∈ setQuantity items oid q) :
    e ∈ items ∨ e.2.quantity = q := by
  induction items with
  | nil => simp [setQuantity] at he
  | cons e₀ rest ih =>
    by_cases hk : e₀.1 = oid
    · simp only [setQuantity, hk, if_true, List.mem_cons] at he
      rcases he with he | he
      · right; simp [he]
      · left; simp [he]
    · simp only [setQuantity, hk, if_false, List.mem_cons] at he
      rcases he with he | he
      · left; simp [he]
      · rcases ih he with h | h
        · left; simp [h]
        · right; exact h

/-- Rounding an integer-valued rational is the identity. -/
theorem roundHalfEven_intCast (m : ℤ) : roundHalfEven (m : ℚ) = m := by
  simp [roundHalfEven]

/-- A value that is exact in two decimals is unchanged by round2. -/
theorem round2_eq_self (q : ℚ) (m : ℤ) (h : q * 100 = (m : ℚ)) : round2 q = q := by
  unfold round2
  rw [h, roundHalfEven_intCast]
  rw [← h]
  field_simp

/-- The subtotal loop of compute_invoice_totals is the sum of the
per-line products. -/
theorem foldl_subtotal (ls : List Line) (a : ℚ) :
    ls.foldl (fun s l => s + l.price * (l.quantity : ℚ)) a =
      a + (ls.map (fun l => l.price * (l.quantity : ℚ))).sum := by
  induction ls generalizing a with
  | nil => simp
  | cons l rest ih => simp [List.foldl_cons, ih, add_assoc]

/-- Evaluation of adjust_stock when the delta coerces and the item
exists: quantity is clamped at zero and a receipt without
previousQuantity/newQuantity keys is appended exactly when the delta is
positive. -/
theorem adjust_stock_ok (db : DB) (oid : ℕ) (doc : Item) (dv : Option Value)
    (d : ℤ) (cb : Option String) (hdv : pyInt (pyOr0 dv) = .ok d)
    (hdoc : findDoc db.items oid = some doc) :
    adjust_stock db oid dv cb =
      (if 0 < d then
        { db with items := setQuantity db.items oid (max 0 (doc.quantity + d)),
                  receipts := db.receipts ++
                    [{ itemId := oid, sku := doc.sku, name := doc.name,
                       quantity := d, previousQuantity := none,
                       newQuantity := none, receivedBy := cb }] }
       else { db with items := setQuantity db.items oid (max 0 (doc.quantity + d)) },
       .ok { doc with quantity := max 0 (doc.quantity + d) }) := by
  simp only [adjust_stock, hdv, hdoc]

/-- Quantity writes of a clamped value preserve the non-negativity
invariant. -/
theorem setQuantity_nonneg (items : List (ℕ × Item)) (oid : ℕ) (q : ℤ)
    (h : ∀ e ∈ items, 0 ≤ e.2.quantity) (hq : 0 ≤ q) :
    ∀ e ∈ setQuantity items oid q, 0 ≤ e.2.quantity := by
  intro e he
  rcases mem_setQuantity items oid q e he with h1 | h1
  · exact h e h1
  · rw [h1]; exact hq

/-- One ledger call preserves the non-negativity invariant. -/
theorem applyStockOp_nonneg (db : DB) (op : StockOp) (h : itemsNonneg db) :
    itemsNonneg (applyStockOp db op) := by
  cases op with
  | adjust oid d cb =>
    simp only [applyStockOp, adjust_stock, pyInt_pyOr0_intCast]
    cases hfd : findDoc db.items oid with
    | none => simpa using h
    | some doc =>
      by_cases hd : 0 < d
      · simp only [hd, if_true]
        exact setQuantity_nonneg _ _ _ h (le_max_left _ _)
      · simp only [hd, if_false]
        exact setQuantity_nonneg _ _ _ h (le_max_left _ _)
  | receive oid q rb =>
    simp only [applyStockOp, receipts_post, pyInt_pyOr0_intCast]
    by_cases hq : q ≤ 0
    · simpa [hq] using h
    · simp only [hq, if_false]
      cases hfd : findDoc db.items oid with
      | none => simpa using h
      | some doc =>
        exact setQuantity_nonneg _ _ _ h (le_max_left _ _)

/-- Invariant of the stats loop accumulator: each component of the fold
equals its closed form. -/
theorem statsAcc_spec (l : List Item) : ∀ a : StatsAcc, a.categories.Nodup →
    (l.foldl statsStep a).totalQuantity =
      a.totalQuantity + (l.map Item.quantity).sum ∧
    (l.foldl statsStep a).totalValue =
      a.totalValue + (l.map (fun it => (it.quantity : ℚ) * it.price)).sum ∧
    (l.foldl statsStep a).lowStockItems =
      a.lowStockItems ++ (l.filter (fun it =>
        decide (0 < it.minStockLevel ∧ it.quantity < it.minStockLevel))).map Item.name ∧
    (l.foldl statsStep a).categories.Nodup ∧
    (l.foldl statsStep a).categories.toFinset =
      a.categories.toFinset ∪
        ((l.map Item.category).filter (fun c => decide (c ≠ ""))).toFinset := by
  induction l with
  | nil => intro a ha; simp [ha]
  | cons it rest ih =>
    intro a ha
    have hstep_nodup : (statsStep a it).categories.Nodup := by
      simp only [statsStep]
      by_cases hc : it.category ≠ ""
      · rw [if_pos hc]
        by_cases hm : it.category ∈ a.categories
        · rwa [if_pos hm]
        · rw [if_neg hm]
          simp [List.nodup_append, ha, hm]
      · rwa [if_neg hc]
    obtain ⟨h1, h2, h3, h4, h5⟩ := ih (statsStep a it) hstep_nodup
    simp only [List.foldl_cons]
    refine ⟨?_, ?_, ?_, h4, ?_⟩
    · rw [h1]; simp [statsStep, add_assoc]
    · rw [h2]; simp [statsStep, add_assoc]
    · rw [h3]
      by_cases hl : 0 < it.minStockLevel ∧ it.quantity < it.minStockLevel
      · rw [List.filter_cons_of_pos (by simpa using hl)]
        simp [statsStep, hl]
      · rw [List.filter_cons_of_neg (by simpa using hl)]
        simp [statsStep, hl]
    · rw [h5]
      simp only [statsStep, List.map_cons]
      by_cases hc : it.category ≠ ""
      · rw [if_pos hc, List.filter_cons_of_pos (by simpa using hc)]
        by_cases hm : it.category ∈ a.categories
        · rw [if_pos hm, List.toFinset_cons]
          ext x
          simp only [Finset.mem_union, List.mem_toFinset, Finset.mem_insert]
          constructor
          · rintro (hx | hx)
            · exact Or.inl hx
            · exact Or.inr (Or.inr hx)
          · rintro (hx | hx | hx)
            · exact Or.inl hx
            · exact Or.inl (by rw [hx]; exact hm)
            · exact Or.inr hx
        · rw [if_neg hm, List.toFinset_append, List.toFinset_cons]
          ext x
          simp only [Finset.mem_union, List.mem_toFinset, Finset.mem_insert,
            List.toFinset_cons, List.toFinset_nil, insert_emptyc_eq,
            Finset.mem_singleton]
          tauto
      · rw [if_neg hc, List.filter_cons_of_neg (by simpa using hc)]

/-- Closed form of compute_invoice_totals in terms of the exact subtotal
and the internal after-discount value. -/
theorem totals_eq (inv : Invoice) :
    compute_invoice_totals inv =
      { subtotal := round2 (rawSubtotal inv),
        discountRate := inv.discountRate,
        discountAmount := round2 (rawSubtotal inv * inv.discountRate / 100),
        taxRate := inv.taxRate,
        taxAmount := round2 (afterDiscount inv * inv.taxRate / 100),
        total := round2 (afterDiscount inv + afterDiscount inv * inv.taxRate / 100) } := by
  simp only [compute_invoice_totals, foldl_subtotal, zero_add, rawSubtotal, afterDiscount]

/-- Case analysis of update_invoice: every run either reports an error
with the store untouched, or replaces exactly the addressed invoice by
its patched version. -/
theorem update_invoice_cases (db : DB) (oid : ℕ) (p : InvoicePatch) :
    (∃ e, update_invoice db oid p = (db, .error e)) ∨
    (∃ inv₀ tq dq nl,
      findDoc db.invoices oid = some inv₀ ∧
      coerceRate p.taxRate = .ok tq ∧ coerceRate p.discountRate = .ok dq ∧
      coerceLines p.lines = .ok nl ∧
      update_invoice db oid p =
        ({ db with
            invoices := setDoc db.invoices oid (applyInvoicePatch inv₀ p tq dq nl) },
         .ok (applyInvoicePatch inv₀ p tq dq nl,
              compute_invoice_totals (applyInvoicePatch inv₀ p tq dq nl)))) := by
  cases hc1 : coerceRate p.taxRate with
  | error e => exact Or.inl ⟨e, by simp only [update_invoice, hc1]⟩
  | ok tq =>
    cases hc2 : coerceRate p.discountRate with
    | error e => exact Or.inl ⟨e, by simp only [update_invoice, hc1, hc2]⟩
    | ok dq =>
      cases hc3 : coerceLines p.lines with
      | error e => exact Or.inl ⟨e, by simp only [update_invoice, hc1, hc2, hc3]⟩
      | ok nl =>
        by_cases hemp : p.isEmpty = true
        · exact Or.inl ⟨.invalidArgument "Nothing to update",
            by simp only [update_invoice, hc1, hc2, hc3, hemp, if_true]⟩
        · rw [Bool.not_eq_true] at hemp
          cases hfd : findDoc db.invoices oid with
          | none =>
            exact Or.inl ⟨.notFound "Invoice not found",
              by simp only [update_invoice, hc1, hc2, hc3, hemp,
                Bool.false_eq_true, if_false, hfd]⟩
          | some inv₀ =>
            exact Or.inr ⟨inv₀, tq, dq, nl, rfl, rfl, rfl, rfl,
              by simp only [update_invoice, hc1, hc2, hc3, hemp,
                Bool.false_eq_true, if_false, hfd]⟩

/-- Evaluation of create_invoice when the preconditions hold and every
numeric coercion succeeds. -/
theorem create_invoice_ok (db : DB) (spec : InvoiceSpec) (now : String)
    (tr dr : ℚ) (nls : List Line)
    (hnum : strFalsy spec.number = false)
    (hne : (spec.lines.getD []).isEmpty = false)
    (htr : pyFloat (pyOr0 spec.taxRate) = .ok tr)
    (hdr : pyFloat (pyOr0 spec.discountRate) = .ok dr)
    (hnl : normalizeLines (spec.lines.getD []) = .ok nls) :
    create_invoice db spec now =
      ({ items := if spec.applyStockChange then applyLines db.items nls
                  else db.items,
         invoices := db.invoices ++ [(db.nextId,
           { number := spec.number.getD "",
             printedAt := timestampToken spec.printedAt now,
             customerName := spec.customerName.getD "",
             customerPhone := spec.customerPhone.getD "",
             taxRate := tr, discountRate := dr,
             lines := nls, createdBy := spec.createdBy.getD "" })],
         receipts := db.receipts, nextId := db.nextId + 1 },
       .ok ({ number := spec.number.getD "",
              printedAt := timestampToken spec.printedAt now,
              customerName := spec.customerName.getD "",
              customerPhone := spec.customerPhone.getD "",
              taxRate := tr, discountRate := dr,
              lines := nls, createdBy := spec.createdBy.getD "" },
            compute_invoice_totals
              { number := spec.number.getD "",
                printedAt := timestampToken spec.printedAt now,
                customerName := spec.customerName.getD "",
                customerPhone := spec.customerPhone.getD "",
                taxRate := tr, discountRate := dr,
                lines := nls, createdBy := spec.createdBy.getD "" })) := by
  by_cases happ : spec.applyStockChange = true
  · simp only [create_invoice, hnum, hne, Bool.or_self, Bool.false_eq_true,
      if_false, htr, hdr, hnl, happ, if_true]
  · rw [Bool.not_eq_true] at happ
    simp only [create_invoice, hnum, hne, Bool.or_self, Bool.false_eq_true,
      if_false, htr, hdr, hnl, happ]

/-- Case analysis of create_invoice: every run either reports an error
with the store untouched, or appends exactly one invoice. -/
theorem create_invoice_cases (db : DB) (spec : InvoiceSpec) (now : String) :
    (∃ e, create_invoice db spec now = (db, .error e)) ∨
    (∃ inv, create_invoice db spec now =
      ({ items := if spec.applyStockChange then applyLines db.items inv.lines
                  else db.items,
         invoices := db.invoices ++ [(db.nextId, inv)],
         receipts := db.receipts, nextId := db.nextId + 1 },
       .ok (inv, compute_invoice_totals inv))) := by
  by_cases hcond : (strFalsy spec.number || (spec.lines.getD []).isEmpty) = true
  · exact Or.inl ⟨.invalidArgument "number and lines are required",
      by simp only [create_invoice, hcond, if_true]⟩
  · rw [Bool.not_eq_true] at hcond
    have hnum : strFalsy spec.number = false := (Bool.or_eq_false_iff.mp hcond).1
    have hne : (spec.lines.getD []).isEmpty = false := (Bool.or_eq_false_iff.mp hcond).2
    cases htr : pyFloat (pyOr0 spec.taxRate) with
    | error u =>
      exact Or.inl ⟨.uncaughtException, by
        simp only [create_invoice, hnum, hne, Bool.or_self, Bool.false_eq_true,
          if_false, htr]⟩
    | ok tr =>
      cases hdr : pyFloat (pyOr0 spec.discountRate) with
      | error u =>
        exact Or.inl ⟨.uncaughtException, by
          simp only [create_invoice, hnum, hne, Bool.or_self, Bool.false_eq_true,
            if_false, htr, hdr]⟩
      | ok dr =>
        cases hnl : normalizeLines (spec.lines.getD []) with
        | error e =>
          exact Or.inl ⟨e, by
            simp only [create_invoice, hnum, hne, Bool.or_self, Bool.false_eq_true,
              if_false, htr, hdr, hnl]⟩
        | ok nls =>
          refine Or.inr
            ⟨{ number := spec.number.getD "",
               printedAt := timestampToken spec.printedAt now,
               customerName := spec.customerName.getD "",
               customerPhone := spec.customerPhone.getD "",
               taxRate := tr, discountRate := dr,
               lines := nls, createdBy := spec.createdBy.getD "" }, ?_⟩
          exact create_invoice_ok db spec now tr dr nls hnum hne htr hdr hnl

/-- C1 (counterexample): it is not the case that the receipt appended by
adjust_stock for a positive delta carries previousQuantity and
newQuantity equal to the quantities before and after the update — at a
store holding one item of quantity 7 and delta 5 the appended receipt
has no previousQuantity/newQuantity values at all. -/
theorem adjust_stock_prev_new_counterexample :
    ¬ (∀ (db : DB) (oid : ℕ) (doc : Item) (dv : Option Value) (d : ℤ)
        (cb : Option String),
        pyInt (pyOr0 dv) = .ok d → findDoc db.items oid = some doc → 0 < d →
        ∃ r : Receipt,
          (adjust_stock db oid dv cb).1.receipts = db.receipts ++ [r] ∧
          r.quantity = d ∧
          r.previousQuantity = some doc.quantity ∧
          r.newQuantity = some (max 0 (doc.quantity + d))) := by
  intro h
  have hdoc : findDoc dbC1.items 1 = some itemC1 := by simp [dbC1, findDoc]
  rcases h dbC1 1 itemC1 (some (.num ((5 : ℤ) : ℚ))) 5 none
      (pyInt_pyOr0_intCast 5) hdoc (by norm_num) with ⟨r, hr, hq, hprev, hnew⟩
  rw [adjust_stock_ok dbC1 1 itemC1 _ 5 none (pyInt_pyOr0_intCast 5) hdoc] at hr
  simp only [show (0:ℤ) < 5 by norm_num, if_true, dbC1] at hr
  have hre : r.previousQuantity = none := by
    have h2 := hr.symm
    simp only [List.nil_append, List.cons.injEq, and_true] at h2
    rw [h2]
  rw [hre] at hprev
  exact Option.noConfusion hprev

/-- C1 (amended): for every existing item and every payload coercing to
an integer delta, adjust_stock appends a Receipt if and only if
delta > 0; the appended receipt has quantity = delta and carries no
previousQuantity/newQuantity values (only receiveStock writes those);
when delta ≤ 0 the receipt log is unchanged and only the item quantity
is written. -/
theorem adjust_stock_receipt_amended (db : DB) (oid : ℕ) (doc : Item)
    (dv : Option Value) (d : ℤ) (cb : Option String)
    (hdv : pyInt (pyOr0 dv) = .ok d) (hdoc : findDoc db.items oid = some doc) :
    (0 < d →
      (adjust_stock db oid dv cb).1.receipts =
        db.receipts ++ [{ itemId := oid, sku := doc.sku, name := doc.name,
                          quantity := d, previousQuantity := none,
                          newQuantity := none, receivedBy := cb }]) ∧
    (d ≤ 0 → (adjust_stock db oid dv cb).1.receipts = db.receipts) ∧
    (adjust_stock db oid dv cb).2 =
      .ok { doc with quantity := max 0 (doc.quantity + d) } := by
  rw [adjust_stock_ok db oid doc dv d cb hdv hdoc]
  refine ⟨?_, ?_, ?_⟩
  · intro hd; simp [hd]
  · intro hd; simp [not_lt.mpr hd]
  · split <;> rfl

/-- C1 (witness): the amended theorem applied to a store holding one
item of quantity 4 and a payload coercing to delta 2. -/
theorem adjust_stock_receipt_amended_witness :
    pyInt (pyOr0 (some (.num ((2:ℤ) : ℚ)))) = .ok 2 ∧
    findDoc dbW1.items 3 = some itemW1 ∧
    ((0 < (2:ℤ) →
      (adjust_stock dbW1 3 (some (.num ((2:ℤ) : ℚ))) none).1.receipts =
        dbW1.receipts ++ [{ itemId := 3, sku := itemW1.sku, name := itemW1.name,
                            quantity := 2, previousQuantity := none,
                            newQuantity := none, receivedBy := none }]) ∧
     ((2:ℤ) ≤ 0 →
      (adjust_stock dbW1 3 (some (.num ((2:ℤ) : ℚ))) none).1.receipts =
        dbW1.receipts) ∧
     (adjust_stock dbW1 3 (some (.num ((2:ℤ) : ℚ))) none).2 =
       .ok { itemW1 with quantity := max 0 (itemW1.quantity + 2) }) :=
  ⟨by rfl, by rfl,
   adjust_stock_receipt_amended dbW1 3 itemW1 _ 2 none (by rfl) (by rfl)⟩

/-- C2: starting from a store whose item quantities are all
non-negative, any finite sequence of adjustStock / receiveStock calls —
no matter how negative the requested deltas — leaves every item quantity
non-negative, because each quantity write is max(0, current + delta). -/
theorem stock_ledger_nonneg (db : DB) (ops : List StockOp)
    (h : itemsNonneg db) : itemsNonneg (runStockOps db ops) := by
  induction ops generalizing db with
  | nil => simpa [runStockOps]
  | cons op rest ih =>
    simp only [runStockOps, List.foldl_cons]
    exact ih _ (applyStockOp_nonneg db op h)

/-- C2 (witness): the invariant holds after an adjustment of -100 on a
stock of 2, a receipt of 5, and an adjustment of -7. -/
theorem stock_ledger_nonneg_witness :
    itemsNonneg dbW2 ∧ itemsNonneg (runStockOps dbW2 opsW2) := by
  have h : itemsNonneg dbW2 := by
    intro e he
    simp only [dbW2, List.mem_singleton] at he
    rw [he]
    decide
  exact ⟨h, stock_ledger_nonneg dbW2 opsW2 h⟩

/-- C3: receiveStock on an existing item with a payload coercing to a
quantity ≤ 0 fails with InvalidArgument and returns the store unchanged:
no receipt is created and no quantity is written, the error being
reported before any state change. -/
theorem receiveStock_nonpos (db : DB) (oid : ℕ) (doc : Item) (qv : Option Value)
    (q : ℤ) (rb : Option String) (hqv : pyInt (pyOr0 qv) = .ok q)
    (_hdoc : findDoc db.items oid = some doc) (hq : q ≤ 0) :
    receipts_post db (some oid) qv rb =
      (db, .error (.invalidArgument "quantity must be > 0")) := by
  simp only [receipts_post, hqv, if_pos hq]

/-- C3 (witness): receiving quantity 0 into a store holding one item of
quantity 9 is rejected with the store unchanged. -/
theorem receiveStock_nonpos_witness :
    pyInt (pyOr0 (some (.num ((0:ℤ) : ℚ)))) = .ok 0 ∧
    findDoc dbW3.items 2 = some itemW3 ∧ (0:ℤ) ≤ 0 ∧
    receipts_post dbW3 (some 2) (some (.num ((0:ℤ) : ℚ))) none =
      (dbW3, .error (.invalidArgument "quantity must be > 0")) :=
  ⟨by rfl, by rfl, by decide,
   receiveStock_nonpos dbW3 2 itemW3 _ 0 none (by rfl) (by rfl) (by decide)⟩

/-- C4: compute_invoice_totals is a pure function of the invoice fields
satisfying subtotal = round2(Σ price×quantity), discountAmount =
round2(subtotal×discountRate/100), after-discount = max(0, subtotal −
discount), taxAmount = round2(after×taxRate/100) and total =
round2(after + tax); on the invoice with subtotal 100, discountRate 10
and taxRate 8 it yields 10.00 / 90 / 7.20 / 97.20, and a zero subtotal
yields total 0 for all rates. -/
theorem compute_invoice_totals_check :
    (∀ inv : Invoice,
      (compute_invoice_totals inv).subtotal = round2 (rawSubtotal inv) ∧
      (compute_invoice_totals inv).discountAmount =
        round2 (rawSubtotal inv * inv.discountRate / 100) ∧
      afterDiscount inv =
        max 0 (rawSubtotal inv - rawSubtotal inv * inv.discountRate / 100) ∧
      (compute_invoice_totals inv).taxAmount =
        round2 (afterDiscount inv * inv.taxRate / 100) ∧
      (compute_invoice_totals inv).total =
        round2 (afterDiscount inv + afterDiscount inv * inv.taxRate / 100) ∧
      (compute_invoice_totals inv).discountRate = inv.discountRate ∧
      (compute_invoice_totals inv).taxRate = inv.taxRate) ∧
    ((compute_invoice_totals invC4).subtotal = 100 ∧
     (compute_invoice_totals invC4).discountAmount = 10 ∧
     afterDiscount invC4 = 90 ∧
     (compute_invoice_totals invC4).taxAmount = 72/10 ∧
     (compute_invoice_totals invC4).total = 972/10) ∧
    (∀ inv : Invoice, rawSubtotal inv = 0 →
      (compute_invoice_totals inv).total = 0) := by
  have hsub : rawSubtotal invC4 = 100 := by
    simp [rawSubtotal, invC4]
  have hafter : afterDiscount invC4 = 90 := by
    rw [afterDiscount, hsub]
    show max 0 (100 - 100 * invC4.discountRate / 100) = 90
    norm_num [invC4]
  refine ⟨?_, ?_, ?_⟩
  · intro inv
    rw [totals_eq inv]
    exact ⟨rfl, rfl, rfl, rfl, rfl, rfl, rfl⟩
  · rw [totals_eq invC4]
    refine ⟨?_, ?_, hafter, ?_, ?_⟩
    · rw [hsub]; exact round2_eq_self 100 10000 (by norm_num)
    · rw [hsub]
      rw [show (100 : ℚ) * invC4.discountRate / 100 = 10 by norm_num [invC4]]
      exact round2_eq_self 10 1000 (by norm_num)
    · rw [hafter]
      rw [show (90 : ℚ) * invC4.taxRate / 100 = 36/5 by norm_num [invC4]]
      rw [round2_eq_self (36/5) 720 (by norm_num)]
      norm_num
    · rw [hafter]
      rw [show (90 : ℚ) + 90 * invC4.taxRate / 100 = 486/5 by norm_num [invC4]]
      rw [round2_eq_self (486/5) 9720 (by norm_num)]
      norm_num
  · intro inv h0
    rw [totals_eq inv]
    have haf : afterDiscount inv = 0 := by
      rw [afterDiscount, h0]; norm_num
    rw [haf]
    show round2 (0 + 0 * inv.taxRate / 100) = 0
    rw [show (0 : ℚ) + 0 * inv.taxRate / 100 = 0 by ring]
    exact round2_eq_self 0 0 (by norm_num)

/-- C4 (witness): the zero-subtotal clause applied to an invoice with no
lines and non-zero rates. -/
theorem compute_invoice_totals_check_witness :
    rawSubtotal invW4 = 0 ∧ (compute_invoice_totals invW4).total = 0 := by
  have h : rawSubtotal invW4 = 0 := by simp [rawSubtotal, invW4]
  exact ⟨h, compute_invoice_totals_check.2.2 invW4 h⟩

/-- C5: when create_invoice runs with applyStockChange = true and its
preconditions and coercions succeed, the resulting store is exactly the
input store with the stock-decrement loop folded over the normalized
lines, no receipt appended, and the invoice persisted; one loop step
skips a line whose reference is absent or does not look up, and
otherwise writes max(0, quantity − line.quantity). -/
theorem create_invoice_stock_decrement (db : DB) (spec : InvoiceSpec)
    (now : String) (tr dr : ℚ) (nls : List Line)
    (hnum : strFalsy spec.number = false)
    (hne : (spec.lines.getD []).isEmpty = false)
    (happ : spec.applyStockChange = true)
    (htr : pyFloat (pyOr0 spec.taxRate) = .ok tr)
    (hdr : pyFloat (pyOr0 spec.discountRate) = .ok dr)
    (hnl : normalizeLines (spec.lines.getD []) = .ok nls) :
    (∃ inv : Invoice, inv.lines = nls ∧
      create_invoice db spec now =
        ({ items := applyLines db.items nls,
           invoices := db.invoices ++ [(db.nextId, inv)],
           receipts := db.receipts, nextId := db.nextId + 1 },
         .ok (inv, compute_invoice_totals inv))) ∧
    (∀ (items : List (ℕ × Item)) (line : Line), line.itemId = none →
      applyLine items line = items) ∧
    (∀ (items : List (ℕ × Item)) (oid : ℕ) (line : Line),
      line.itemId = some oid → findDoc items oid = none →
      applyLine items line = items) ∧
    (∀ (items : List (ℕ × Item)) (oid : ℕ) (line : Line) (doc : Item),
      line.itemId = some oid → findDoc items oid = some doc →
      applyLine items line =
        setQuantity items oid (max 0 (doc.quantity - line.quantity))) ∧
    applyLines db.items nls = nls.foldl applyLine db.items := by
  refine ⟨?_, ?_, ?_, ?_, rfl⟩
  · refine
      ⟨{ number := spec.number.getD "",
         printedAt := timestampToken spec.printedAt now,
         customerName := spec.customerName.getD "",
         customerPhone := spec.customerPhone.getD "",
         taxRate := tr, discountRate := dr,
         lines := nls, createdBy := spec.createdBy.getD "" }, rfl, ?_⟩
    rw [create_invoice_ok db spec now tr dr nls hnum hne htr hdr hnl]
    simp only [happ, if_true]
  · intro items line h; simp [applyLine, h]
  · intro items oid line h hfd; simp [applyLine, h, hfd]
  · intro items oid line doc h hfd; simp [applyLine, h, hfd]

/-- C5 (witness): a sale of 5 against a stock of 3 clamps the item to
quantity 0, and a line referencing the absent id 99 is skipped while the
invoice is still created. -/
theorem create_invoice_stock_decrement_witness :
    strFalsy specW5.number = false ∧
    (specW5.lines.getD []).isEmpty = false ∧
    specW5.applyStockChange = true ∧
    pyFloat (pyOr0 specW5.taxRate) = .ok 0 ∧
    pyFloat (pyOr0 specW5.discountRate) = .ok 0 ∧
    normalizeLines (specW5.lines.getD []) = .ok nlsW5 ∧
    ((∃ inv : Invoice, inv.lines = nlsW5 ∧
      create_invoice dbW5 specW5 "t" =
        ({ items := applyLines dbW5.items nlsW5,
           invoices := dbW5.invoices ++ [(dbW5.nextId, inv)],
           receipts := dbW5.receipts, nextId := dbW5.nextId + 1 },
         .ok (inv, compute_invoice_totals inv))) ∧
     (∀ (items : List (ℕ × Item)) (line : Line), line.itemId = none →
       applyLine items line = items) ∧
     (∀ (items : List (ℕ × Item)) (oid : ℕ) (line : Line),
       line.itemId = some oid → findDoc items oid = none →
       applyLine items line = items) ∧
     (∀ (items : List (ℕ × Item)) (oid : ℕ) (line : Line) (doc : Item),
       line.itemId = some oid → findDoc items oid = some doc →
       applyLine items line =
         setQuantity items oid (max 0 (doc.quantity - line.quantity))) ∧
     applyLines dbW5.items nlsW5 = nlsW5.foldl applyLine dbW5.items) ∧
    findDoc (create_invoice dbW5 specW5 "t").1.items 1 =
      some { itemW5 with quantity := 0 } :=
  ⟨by rfl, by rfl, by rfl, by rfl, by rfl, by rfl,
   create_invoice_stock_decrement dbW5 specW5 "t" 0 0 nlsW5
     (by rfl) (by rfl) (by rfl) (by rfl) (by rfl) (by rfl),
   by rfl⟩

/-- C6: update_invoice never changes the items collection or the receipt
log on any path; an error leaves the whole store unchanged, and a
successful update replaces only the addressed invoice, whose number,
printedAt and createdBy are untouched while customerName, customerPhone,
taxRate, discountRate and lines take the patched value exactly when the
corresponding key is present. -/
theorem update_invoice_never_touches_items (db : DB) (oid : ℕ) (p : InvoicePatch) :
    (update_invoice db oid p).1.items = db.items ∧
    (update_invoice db oid p).1.receipts = db.receipts ∧
    (∀ e db', update_invoice db oid p = (db', .error e) → db' = db) ∧
    (∀ inv t db', update_invoice db oid p = (db', .ok (inv, t)) →
      ∃ inv₀ tq dq nl,
        findDoc db.invoices oid = some inv₀ ∧
        coerceRate p.taxRate = .ok tq ∧
        coerceRate p.discountRate = .ok dq ∧
        coerceLines p.lines = .ok nl ∧
        db'.invoices = setDoc db.invoices oid inv ∧
        t = compute_invoice_totals inv ∧
        inv.number = inv₀.number ∧ inv.printedAt = inv₀.printedAt ∧
        inv.createdBy = inv₀.createdBy ∧
        inv.customerName = p.customerName.getD inv₀.customerName ∧
        inv.customerPhone = p.customerPhone.getD inv₀.customerPhone ∧
        inv.taxRate = tq.getD inv₀.taxRate ∧
        inv.discountRate = dq.getD inv₀.discountRate ∧
        inv.lines = nl.getD inv₀.lines) := by
  rcases update_invoice_cases db oid p with ⟨e, he⟩ |
    ⟨inv₀, tq, dq, nl, hfd, hc1, hc2, hc3, hok⟩
  · refine ⟨by rw [he], by rw [he], ?_, ?_⟩
    · intro e' db' h
      rw [he] at h
      exact (Prod.mk.injEq _ _ _ _ ▸ h).1.symm ▸ rfl
    · intro inv t db' h
      rw [he] at h
      obtain ⟨-, h2⟩ := Prod.mk.injEq _ _ _ _ ▸ h
      exact absurd h2 (by simp)
  · refine ⟨by rw [hok], by rw [hok], ?_, ?_⟩
    · intro e' db' h
      rw [hok] at h
      obtain ⟨-, h2⟩ := Prod.mk.injEq _ _ _ _ ▸ h
      exact absurd h2 (by simp)
    · intro inv t db' h
      rw [hok] at h
      obtain ⟨h1, h2⟩ := Prod.mk.injEq _ _ _ _ ▸ h
      simp only [Except.ok.injEq, Prod.mk.injEq] at h2
      obtain ⟨hinv, ht⟩ := h2
      refine ⟨inv₀, tq, dq, nl, hfd, hc1, hc2, hc3, ?_, ?_, ?_⟩
      · rw [← h1, ← hinv]
      · rw [← ht, ← hinv]
      · rw [← hinv]
        simp [applyInvoicePatch]

/-- C6 (witness): replacing the customer name on a stored invoice leaves
the items and receipts of the store unchanged and rewrites only the
addressed invoice. -/
theorem update_invoice_never_touches_items_witness :
    (update_invoice dbW6 7 patchW6).1.items = dbW6.items ∧
    (update_invoice dbW6 7 patchW6).1.receipts = dbW6.receipts ∧
    (update_invoice dbW6 7 patchW6).1.invoices = setDoc dbW6.invoices 7 invW6x := by
  obtain ⟨h1, h2, -, h4⟩ := update_invoice_never_touches_items dbW6 7 patchW6
  obtain ⟨inv₀, tq, dq, nl, -, -, -, -, hinv, -, -, -, -, -, -, -, -, -⟩ :=
    h4 invW6x (compute_invoice_totals invW6x)
      (update_invoice dbW6 7 patchW6).1 (by rfl)
  exact ⟨h1, h2, hinv⟩

/-- C7 (code bug): update_item on an existing item with the non-numeric
quantity value "abc" does not report InvalidArgument — the unguarded
int() raises, which the model returns as an uncaught exception (an
unclassified HTTP 500), with the store unchanged. -/
theorem update_item_non_numeric_uncaught :
    update_item dbC7 1 { quantity := some (.str "abc") } =
      (dbC7, .error .uncaughtException) := by
  rfl

/-- C8 (counterexample): it is not the case that create_invoice persists
an invoice whenever number and lines are present — with number "INV-1"
and one line whose quantity is the non-numeric string "x" the call
raises (uncaught int() failure) and nothing is persisted. -/
theorem create_invoice_present_counterexample :
    ¬ (∀ (db : DB) (spec : InvoiceSpec) (now : String),
        strFalsy spec.number = false → (spec.lines.getD []).isEmpty = false →
        ∃ inv t db', create_invoice db spec now = (db', .ok (inv, t)) ∧
          db'.invoices = db.invoices ++ [(db.nextId, inv)]) := by
  intro h
  rcases h dbC8 specC8 "t" (by rfl) (by rfl) with ⟨inv, t, db', heq, _⟩
  rw [show create_invoice dbC8 specC8 "t" = (dbC8, .error .uncaughtException)
    from rfl] at heq
  exact absurd (congrArg Prod.snd heq) (by simp)

/-- C8 (amended): create_invoice fails with InvalidArgument exactly when
the number is empty/absent or the lines list is empty/absent, and every
error return leaves the store — invoices and item quantities —
unchanged; when both are present and the numeric fields (taxRate,
discountRate, line price and quantity) coerce, the invoice is persisted
and returned together with its computed Totals. -/
theorem create_invoice_amended (db : DB) (spec : InvoiceSpec) (now : String) :
    ((strFalsy spec.number = true ∨ (spec.lines.getD []).isEmpty = true) →
      create_invoice db spec now =
        (db, .error (.invalidArgument "number and lines are required"))) ∧
    (∀ e db', create_invoice db spec now = (db', .error e) → db' = db) ∧
    (∀ (tr dr : ℚ) (nls : List Line), strFalsy spec.number = false →
      (spec.lines.getD []).isEmpty = false →
      pyFloat (pyOr0 spec.taxRate) = .ok tr →
      pyFloat (pyOr0 spec.discountRate) = .ok dr →
      normalizeLines (spec.lines.getD []) = .ok nls →
      ∃ inv : Invoice, inv.lines = nls ∧
        create_invoice db spec now =
          ({ items := if spec.applyStockChange then applyLines db.items nls
                      else db.items,
             invoices := db.invoices ++ [(db.nextId, inv)],
             receipts := db.receipts, nextId := db.nextId + 1 },
           .ok (inv, compute_invoice_totals inv))) := by
  refine ⟨?_, ?_, ?_⟩
  · intro h
    rcases h with h | h <;>
      simp only [create_invoice, h, Bool.true_or, Bool.or_true, if_true]
  · intro e db' h
    rcases create_invoice_cases db spec now with ⟨e0, he⟩ | ⟨inv, he⟩
    · rw [he] at h
      exact (congrArg Prod.fst h).symm
    · rw [he] at h
      exact absurd (congrArg Prod.snd h) (by simp)
  · intro tr dr nls hnum hne htr hdr hnl
    refine
      ⟨{ number := spec.number.getD "",
         printedAt := timestampToken spec.printedAt now,
         customerName := spec.customerName.getD "",
         customerPhone := spec.customerPhone.getD "",
         taxRate := tr, discountRate := dr,
         lines := nls, createdBy := spec.createdBy.getD "" }, rfl, ?_⟩
    exact create_invoice_ok db spec now tr dr nls hnum hne htr hdr hnl

/-- C8 (witness): a payload with the number absent is rejected with the
store unchanged, and a well-formed payload is persisted with its totals. -/
theorem create_invoice_amended_witness :
    (strFalsy specW8a.number = true ∨ (specW8a.lines.getD []).isEmpty = true) ∧
    create_invoice dbW8 specW8a "t" =
      (dbW8, .error (.invalidArgument "number and lines are required")) ∧
    (∃ inv : Invoice, inv.lines = nlsW8 ∧
      create_invoice dbW8 specW8b "t" =
        ({ items := if specW8b.applyStockChange then
                      applyLines dbW8.items nlsW8
                    else dbW8.items,
           invoices := dbW8.invoices ++ [(dbW8.nextId, inv)],
           receipts := dbW8.receipts, nextId := dbW8.nextId + 1 },
         .ok (inv, compute_invoice_totals inv))) :=
  ⟨Or.inl (by rfl),
   (create_invoice_amended dbW8 specW8a "t").1 (Or.inl (by rfl)),
   (create_invoice_amended dbW8 specW8b "t").2.2 0 0 nlsW8
     (by rfl) (by rfl) (by rfl) (by rfl) (by rfl)⟩

/-- C9: computeStats is the stated fold — totalQuantity is the sum of
all quantities, totalInventoryValue the two-decimal rounding of
Σ quantity×price, lowStockItems the names of exactly the items with
minStockLevel > 0 and quantity < minStockLevel, lowStockCount its
length, and uniqueCategoriesCount the number of distinct non-empty
category values; on the two-item worked example it returns 25 / 1 /
the first item's name / 30.00 / 1. -/
theorem stats_check :
    (∀ db : DB,
      (stats db).totalQuantity = ((db.items.map Prod.snd).map Item.quantity).sum ∧
      (stats db).totalInventoryValue =
        round2 (((db.items.map Prod.snd).map
          (fun it => (it.quantity : ℚ) * it.price)).sum) ∧
      (stats db).lowStockItems = ((db.items.map Prod.snd).filter (fun it =>
        decide (0 < it.minStockLevel ∧ it.quantity < it.minStockLevel))).map Item.name ∧
      (stats db).lowStockCount = (stats db).lowStockItems.length ∧
      (stats db).uniqueCategoriesCount =
        (((db.items.map Prod.snd).map Item.category).filter
          (fun c => decide (c ≠ ""))).toFinset.card) ∧
    ((stats dbC9).totalQuantity = 25 ∧
     (stats dbC9).lowStockCount = 1 ∧
     (stats dbC9).lowStockItems = ["Alpha"] ∧
     (stats dbC9).totalInventoryValue = 30 ∧
     (stats dbC9).uniqueCategoriesCount = 1) := by
  have hgen : ∀ db : DB,
      (stats db).totalQuantity = ((db.items.map Prod.snd).map Item.quantity).sum ∧
      (stats db).totalInventoryValue =
        round2 (((db.items.map Prod.snd).map
          (fun it => (it.quantity : ℚ) * it.price)).sum) ∧
      (stats db).lowStockItems = ((db.items.map Prod.snd).filter (fun it =>
        decide (0 < it.minStockLevel ∧ it.quantity < it.minStockLevel))).map Item.name ∧
      (stats db).lowStockCount = (stats db).lowStockItems.length ∧
      (stats db).uniqueCategoriesCount =
        (((db.items.map Prod.snd).map Item.category).filter
          (fun c => decide (c ≠ ""))).toFinset.card := by
    intro db
    have hfold : db.items.foldl (fun a e => statsStep a e.2) ⟨0, [], 0, []⟩ =
        (db.items.map Prod.snd).foldl statsStep ⟨0, [], 0, []⟩ := by
      rw [List.foldl_map]
    obtain ⟨h1, h2, h3, h4, h5⟩ :=
      statsAcc_spec (db.items.map Prod.snd) ⟨0, [], 0, []⟩ (by simp)
    have hcard : ((db.items.map Prod.snd).foldl statsStep
        ⟨0, [], 0, []⟩).categories.length =
        (((db.items.map Prod.snd).map Item.category).filter
          (fun c => decide (c ≠ ""))).toFinset.card := by
      rw [← List.toFinset_card_of_nodup h4, h5]
      simp
    refine ⟨?_, ?_, ?_, ?_, ?_⟩ <;>
      simp only [stats, hfold, h1, h2, h3, hcard, zero_add, List.nil_append]
  refine ⟨hgen, ?_⟩
  obtain ⟨h1, h2, h3, h4, h5⟩ := hgen dbC9
  have hlow : (stats dbC9).lowStockItems = ["Alpha"] := by
    rw [h3]
    simp only [dbC9, itemC9a, itemC9b, List.map_cons, List.map_nil]
    rw [List.filter_cons_of_pos (by decide), List.filter_cons_of_neg (by decide)]
    simp
  refine ⟨?_, ?_, hlow, ?_, ?_⟩
  · rw [h1]; simp [dbC9, itemC9a, itemC9b]
  · rw [h4, hlow]; rfl
  · rw [h2]
    simp only [dbC9, itemC9a, itemC9b, List.map_cons, List.map_nil]
    have hs : ([((5:ℤ):ℚ) * 2, ((20:ℤ):ℚ) * 1].sum : ℚ) = 30 := by
      simp
      norm_num
    rw [hs]
    exact round2_eq_self 30 3000 (by norm_num)
  · rw [h5]
    simp only [dbC9, itemC9a, itemC9b, List.map_cons, List.map_nil]
    rw [List.filter_cons_of_neg (by decide), List.filter_cons_of_pos (by decide)]
    simp

/-- C10: update_item on an existing item stores a negative quantity
payload as-is — the stored quantity becomes exactly n with no clamping
to zero, so the non-negative-quantity invariant is not preserved by
update_item. -/
theorem update_item_stores_negative (db : DB) (oid : ℕ) (doc : Item) (n : ℤ)
    (hdoc : findDoc db.items oid = some doc) (_hn : n < 0) :
    update_item db oid { quantity := some (.num (n : ℚ)) } =
      ({ db with items := setDoc db.items oid { doc with quantity := n } },
       .ok { doc with quantity := n }) ∧
    findDoc (update_item db oid { quantity := some (.num (n : ℚ)) }).1.items oid =
      some { doc with quantity := n } := by
  have h1 : update_item db oid { quantity := some (.num (n : ℚ)) } =
      ({ db with items := setDoc db.items oid { doc with quantity := n } },
       .ok { doc with quantity := n }) := by
    simp [update_item, coerceNum, pyInt_num_intCast, ItemPatch.isEmpty, hdoc,
      applyItemPatch]
  refine ⟨h1, ?_⟩
  rw [h1]
  exact findDoc_setDoc_self _ _ _ (by simp [hdoc])

/-- C10 (witness): updating an item of quantity 6 with quantity -5
stores -5. -/
theorem update_item_stores_negative_witness :
    findDoc dbW10.items 4 = some itemW10 ∧ (-5:ℤ) < 0 ∧
    (update_item dbW10 4 { quantity := some (.num ((-5:ℤ) : ℚ)) } =
      ({ dbW10 with items := setDoc dbW10.items 4 { itemW10 with quantity := -5 } },
       .ok { itemW10 with quantity := -5 }) ∧
     findDoc (update_item dbW10 4
       { quantity := some (.num ((-5:ℤ) : ℚ)) }).1.items 4 =
      some { itemW10 with quantity := -5 }) :=
  ⟨by rfl, by decide,
   update_item_stores_negative dbW10 4 itemW10 (-5) (by rfl) (by decide)⟩
